import Mathlib

/-!
# Verification of the fixit-cli workflows

Shallow embedding of the command actions of the fixit-cli repository:
`src/bin/actions.ts` (the `@clack/prompts` + `picocolors` + `shelljs`
implementation) and `src/lib/actions.ts` (the `inquirer` + `chalk` + `ora`
implementation).

Each workflow is embedded as a pure function from its inputs — the accepted
prompt answers and the outcomes of the external collaborators (git clone,
remote removal, history deletion, release fetch, `which hugo`) — to the
sequence of externally visible effects it performs together with the explicit
process-exit call it makes, if any.  External collaborators (simple-git,
the GitHub API client, the shell) are modelled as outcome parameters: each
git sub-operation is an independent fallible call invoked in the order the
source invokes it, delivering either success or an error message to its
error-first callback.

Terminal colouring (picocolors / chalk) is modelled by the ANSI SGR wrappers
those libraries emit when colour output is enabled.
-/

/-- ANSI gray styling, as emitted by `c.gray` / `chalk.gray`. -/
def gray (s : String) : String := "\x1b[90m" ++ s ++ "\x1b[39m"

/-- ANSI red styling, as emitted by `c.red` / `chalk.red`. -/
def red (s : String) : String := "\x1b[31m" ++ s ++ "\x1b[39m"

/-- ANSI green styling, as emitted by `c.green` / `chalk.green`. -/
def green (s : String) : String := "\x1b[32m" ++ s ++ "\x1b[39m"

/-- ANSI blue styling, as emitted by `c.blue` / `chalk.blue`. -/
def blue (s : String) : String := "\x1b[34m" ++ s ++ "\x1b[39m"

/-- ANSI cyan styling, as emitted by `c.cyan` / `chalk.cyan`. -/
def cyan (s : String) : String := "\x1b[36m" ++ s ++ "\x1b[39m"

/-- ANSI magenta styling, as emitted by `chalk.magenta`. -/
def magenta (s : String) : String := "\x1b[35m" ++ s ++ "\x1b[39m"

/-- The two template kinds offered by the `create` command:
`go` is the Hugo-module based template (the spec's ModuleBased),
`git` is the Git-submodule based template (the spec's SubmoduleBased). -/
inductive Template where
  | go
  | git
deriving DecidableEq, Repr

/-- The `repositories` mapping of both `createAction` implementations. -/
def repositories : Template → String
  | .go => "https://github.com/hugo-fixit/hugo-fixit-starter.git"
  | .git => "https://github.com/hugo-fixit/hugo-fixit-starter1.git"

/-- The `CloneOptions` record passed to `git.clone`.  The source builds a
string-keyed object; the flags that ever occur are modelled as fields.
`--depth 1`, `--branch main` and `--single-branch` are always set;
the two submodule flags are added only for the `git` template. -/
structure CloneOptions where
  depth : Nat
  branch : String
  singleBranch : Bool
  recurseSubmodules : Bool
  shallowSubmodules : Bool
deriving DecidableEq, Repr

/-- The clone options built by both `createAction` implementations
(identical object literals in `src/bin/actions.ts` and `src/lib/actions.ts`):
base options `--depth 1 --branch main --single-branch`, plus
`--recurse-submodules --shallow-submodules` when the chosen template
is the Git-submodule one. -/
def cloneOptions (t : Template) : CloneOptions :=
  let base : CloneOptions :=
    { depth := 1
      branch := "main"
      singleBranch := true
      recurseSubmodules := false
      shallowSubmodules := false }
  if t = .git then
    { base with recurseSubmodules := true, shallowSubmodules := true }
  else
    base

/-- The `validate` function of the name prompt in `src/bin/actions.ts`:
returns the error message for the empty string, and nothing (accept)
otherwise. -/
def validate (val : String) : Option String :=
  if val = "" then some "project name is required!" else none

/-- The `validate` function of the name prompt in `src/lib/actions.ts`:
the source returns the error string for `''` and `true` otherwise; `none`
here stands for the accepting `true`. -/
def libValidate (val : String) : Option String :=
  if val = "" then some "project name is required" else none

/-- The prompt loop for the project name: the user supplies a sequence of
candidate answers and the prompt accepts the first one that passes
`validate`; if none passes (the user cancels instead), no name is produced. -/
def promptName (candidates : List String) : Option String :=
  candidates.find? (fun s => (validate s).isNone)

/-- The prompt loop of the `inquirer` implementation, with its `validate`. -/
def libPromptName (candidates : List String) : Option String :=
  candidates.find? (fun s => (libValidate s).isNone)

/-- The release metadata returned by `getLatestRelease`
(declared in `types/index.d.ts`). -/
structure ReleaseInfo where
  version : String
  changelog : String
  homeUrl : String
deriving DecidableEq, Repr

/-- The answer of the `@clack/prompts` `confirm` prompt: a boolean, or the
cancel symbol the library returns when the user aborts the prompt. -/
inductive ConfirmAnswer where
  | answer (b : Bool)
  | cancelSymbol
deriving DecidableEq, Repr

/-- An externally visible effect of a workflow run.  `log` covers every
printed line (prompt-library log/step/spinner messages and `console.log`);
`outro` is the closing `p.outro` line, which is the only place
`timer.stop()` is invoked; the `git…` effects are the simple-git
sub-operations in invocation order; `fetchRelease` is the single GitHub API
call of the check workflow; `shellCd`/`shellExec` are the shelljs
subprocess-related calls. -/
inductive Effect where
  | timerStart
  | log (s : String)
  | outro (s : String)
  | gitClean
  | gitClone (repo : String) (dir : String) (opts : CloneOptions)
  | gitCwd (dir : String)
  | gitRemoveRemote (remote : String)
  | gitRaw (args : List String)
  | gitAdd (files : String)
  | gitCommit (msg : String)
  | fetchRelease (owner : String) (repo : String)
  | shellCd (dir : String)
  | shellExec (cmd : String)
deriving DecidableEq, Repr

/-- Is the effect one of the git sub-operations? -/
def Effect.isGitOp : Effect → Bool
  | .timerStart => false
  | .log _ => false
  | .outro _ => false
  | .gitClean => true
  | .gitClone _ _ _ => true
  | .gitCwd _ => true
  | .gitRemoveRemote _ => true
  | .gitRaw _ => true
  | .gitAdd _ => true
  | .gitCommit _ => true
  | .fetchRelease _ _ => false
  | .shellCd _ => false
  | .shellExec _ => false

/-- Is the effect a subprocess-related shell call? -/
def Effect.isSubprocess : Effect → Bool
  | .shellCd _ => true
  | .shellExec _ => true
  | _ => false

/-- Is the effect the closing `p.outro` line (the only invocation site of
`timer.stop()`)? -/
def Effect.isOutro : Effect → Bool
  | .outro _ => true
  | _ => false

/-- Is the effect the release-fetch API call? -/
def Effect.isFetch : Effect → Bool
  | .fetchRelease _ _ => true
  | _ => false

/-- The printed text of an output effect, if it is one. -/
def Effect.outputLine : Effect → Option String
  | .log s => some s
  | .outro s => some s
  | _ => none

/-- All printed lines of a trace, in order. -/
def outputLines (t : List Effect) : List String :=
  t.filterMap Effect.outputLine

/-- The result of a workflow run: the trace of effects, and the argument of
the explicit `process.exit` call that ended it, if any.  `none` means the
function returned normally and the node process terminates with the default
status 0 once the event loop drains (or, after a synchronous `shell.exec`
hand-off, when that subprocess finishes). -/
abbrev RunResult := List Effect × Option Nat

/-- The observable exit status of a run: the explicit `process.exit`
argument, or the default status 0 when no explicit exit was made. -/
def processStatus (r : RunResult) : Nat :=
  match r.2 with
  | some c => c
  | none => 0

/-- Modelled from the spec: the elapsed-time reporter `timer` lives in
`src/lib/utils.ts`, which is not among the sources; per the spec it is a
stopwatch whose `stop()` returns the elapsed time, reported once in the
final output line.  `stop()` is modelled as returning the run's elapsed
milliseconds, supplied to each workflow as the parameter `elapsedMs`; the
source renders `timer.stop() / 1000` (JS float division is abstracted to
natural division). -/
def doneMsg (elapsedMs : Nat) : String :=
  "Done in " ++ toString (elapsedMs / 1000) ++ "s"

/-- `cd <name> && hugo server -O`, the manual dev-server command printed by
`src/bin/actions.ts`. -/
def serverCmd (name : String) : String :=
  "cd " ++ name ++ " && hugo server -O"

/-- The fixed submodule upgrade command printed by `checkAction`
(a string literal with no interpolation). -/
def submoduleCommand : String :=
  "git submodule update --remote --merge themes/FixIt"

/-- The module-based upgrade command printed by `checkAction`, with the
fetched version string interpolated:
`hugo mod get -u github.com/hugo-fixit/FixIt@${version}`. -/
def moduleCommand (version : String) : String :=
  "hugo mod get -u github.com/hugo-fixit/FixIt@" ++ version

/-- The changelog rendering of `src/bin/actions.ts`:
`changelog.split('\n').map(line => c.gray(line)).join('\n')`. -/
def styledChangelog (changelog : String) : String :=
  String.intercalate "\n" ((changelog.splitOn "\n").map gray)

/-- The `Release Notes:` log line of `src/bin/actions.ts`. -/
def releaseNotesMsg (homeUrl changelog : String) : String :=
  "Release Notes: " ++ cyan homeUrl ++ "\n\n" ++ styledChangelog changelog

/-- The upgrade-instruction step of `src/bin/actions.ts`, one block per
dependency-management style. -/
def upgradeStep (version : String) : String :=
  "You can use commands below to update FixIt theme to the latest version.\n"
    ++ gray "Hugo module:" ++ "\n"
    ++ "  " ++ blue (moduleCommand version) ++ "\n"
    ++ "  " ++ blue "hugo mod tidy" ++ "\n"
    ++ gray "Git submodule:" ++ "\n"
    ++ "  " ++ blue submoduleCommand

/-- The token guidance step printed by `checkAction` on fetch failure. -/
def tokenHintStep : String :=
  "You can set GITHUB_TOKEN env to avoid GitHub API rate limit.\nRun command "
    ++ blue "fixit help check" ++ " for more details.\n"

/-- The post-init choice of `src/bin/actions.ts` (`createAction` steps after
the first commit): confirm starting the dev server; a strictly falsy answer
prints the manual command and exits 0; otherwise, missing `hugo` prints an
error plus instructions and exits 1, and present `hugo` prints the command,
changes directory into the project and runs the server synchronously. -/
def postInit (name : String) (runServer : ConfirmAnswer) (hugoInstalled : Bool)
    (elapsedMs : Nat) : RunResult :=
  match runServer with
  | .answer false =>
      ([.log ("Run " ++ blue (serverCmd name) ++ " to start the development server."),
        .outro (doneMsg elapsedMs)],
       some 0)
  | _ =>
      if hugoInstalled then
        ([.log "Starting the development server...",
          .log ("> " ++ blue (serverCmd name)),
          .outro (doneMsg elapsedMs),
          .shellCd name,
          .shellExec "hugo server -O"],
         none)
      else
        ([.log "Starting the development server...",
          .log (red "Hugo is not installed. You need to install Hugo to start this project!"),
          .log ("After installing Hugo, run " ++ blue (serverCmd name)
                  ++ " to start the development server."),
          .outro (doneMsg elapsedMs)],
         some 1)

/-- The detach-history and baseline-commit steps of `src/bin/actions.ts`:
`git.cwd`, then `removeRemote('origin')` whose failure is reported to its
callback, then — unconditionally — `git.raw(['update-ref','-d','HEAD'])`;
on its failure the chained continuation does not run and the function ends;
on success `git add ./*`, `git commit 'first commit'` and the post-init
choice follow. -/
def detachAndCommit (name : String) (removeRemoteResult updateRefResult : Option String)
    (runServer : ConfirmAnswer) (hugoInstalled : Bool) (elapsedMs : Nat) : RunResult :=
  let head : List Effect :=
    [.log ("Initializing FixIt project " ++ name ++ "."),
     .gitCwd name,
     .log "Removing remote origin.",
     .gitRemoveRemote "origin"]
    ++ (match removeRemoteResult with
        | some err => [.log err]
        | none => [.log (green "✔" ++ " removed remote origin.")])
    ++ [.log "Removing history commits.",
        .gitRaw ["update-ref", "-d", "HEAD"]]
  match updateRefResult with
  | some err => (head ++ [.log err], none)
  | none =>
      let rest := postInit name runServer hugoInstalled elapsedMs
      (head
        ++ [.log (green "✔" ++ " removed history commits."),
            .gitAdd "./*",
            .gitCommit "first commit",
            .log (green "✔" ++ " FixIt project " ++ name ++ " initialized!"),
            .log "🎉 Congratulations! You have created a new FixIt project."]
        ++ rest.1,
       rest.2)

/-- `createAction` of `src/bin/actions.ts`.  Inputs: the candidate answers of
the name prompt, the chosen template, the outcomes of the clone,
remote-removal and history-deletion calls (`some errMessage` on failure),
the answer of the post-init confirm prompt, whether `shell.which('hugo')`
succeeds, and the elapsed time `timer.stop()` reports.  Cancelling the
initial prompt group runs its `onCancel`, which exits 0.  A clone failure
stops the spinner with the error message and returns. -/
def binCreateAction (candidates : List String) (template : Template)
    (cloneResult removeRemoteResult updateRefResult : Option String)
    (runServer : ConfirmAnswer) (hugoInstalled : Bool) (elapsedMs : Nat) : RunResult :=
  match promptName candidates with
  | none => ([.timerStart, .log "Operation cancelled."], some 0)
  | some name =>
      let pre : List Effect :=
        [.timerStart,
         .log ("Initializing FixIt project " ++ name ++ ", please wait a moment..."),
         .log ("Template downloading from " ++ cyan (repositories template) ++ "."),
         .gitClean,
         .gitClone (repositories template) name (cloneOptions template)]
      match cloneResult with
      | some err => (pre ++ [.log err], none)
      | none =>
          let rest := detachAndCommit name removeRemoteResult updateRefResult
            runServer hugoInstalled elapsedMs
          (pre
            ++ [.log (green "✔" ++ " Template downloaded from "
                        ++ cyan (repositories template))]
            ++ rest.1,
           rest.2)

/-- `checkAction` of `src/bin/actions.ts`.  The release fetch outcome is the
input: `.ok` carries the `ReleaseInfo`, `.error` the error message.  On
success it renders release notes, version line, the two upgrade blocks and
the outro; on failure it logs the reddened message, the failed spinner line
and the token guidance, then exits 1. -/
def binCheckAction (fetchResult : Except String ReleaseInfo) (elapsedMs : Nat) : RunResult :=
  let pre : List Effect :=
    [.timerStart,
     .log "Checking the latest version of FixIt theme.",
     .fetchRelease "hugo-fixit" "FixIt"]
  match fetchResult with
  | .ok info =>
      (pre
        ++ [.log (releaseNotesMsg info.homeUrl info.changelog),
            .log (green "✔" ++ " The latest version of FixIt theme is "
                    ++ blue info.version ++ "."),
            .log (upgradeStep info.version),
            .outro (doneMsg elapsedMs)],
       none)
  | .error err =>
      (pre
        ++ [.log (red err),
            .log (red "✘" ++ " failed to check the latest version of FixIt theme."),
            .log tokenHintStep],
       some 1)

/-- `helpAction` of `src/bin/actions.ts`: a switch over the command keyword,
closed by the outro with the elapsed time in every case. -/
def helpAction (command : String) (elapsedMs : Nat) : RunResult :=
  (Effect.timerStart ::
    (if command = "create" then
      [.log "Create a new FixIt project from a template based on Git submodule or Hugo module.",
       .log ("Usage: " ++ blue "fixit create <project-name>")]
    else if command = "check" then
      [.log "Check the latest version of FixIt theme.",
       .log ("Usage: " ++ blue "[GITHUB_TOKEN=xxx] fixit check"),
       .log (gray "You can set GITHUB_TOKEN env to avoid GitHub API rate limit.\n"
              ++ gray "Head to "
              ++ cyan "https://docs.github.com/en/github/authenticating-to-github/keeping-your-account-and-data-secure/creating-a-personal-access-token\n"
              ++ gray "for guidance on how to create a personal access token.")]
    else if command = "help" then
      [.log "Display help for a specific command.",
       .log ("Usage: " ++ blue "fixit help <command>")]
    else
      [.log ("Unknown help topic " ++ red command ++ "."),
       .log ("Refer to " ++ blue "fixit --help" ++ " for supported commands.")])
    ++ [.outro (doneMsg elapsedMs)],
   none)

/-- The detach-history, baseline-commit and closing logs of `createAction`
in `src/lib/actions.ts`: structurally the same git sub-operation sequence as
the bin implementation, but with ora/chalk messages, and after the commit it
only prints the congratulations and the manual command — there is no
post-init prompt, no `hugo` lookup and no subprocess. -/
def libDetachAndCommit (name : String)
    (removeRemoteResult updateRefResult : Option String) : RunResult :=
  let head : List Effect :=
    [.log ("Initializing FixIt project " ++ name),
     .gitCwd name,
     .log "Removing remote origin.",
     .gitRemoveRemote "origin"]
    ++ (match removeRemoteResult with
        | some err => [.log (red err)]
        | none => [.log (green "[Success]" ++ " removed remote origin.")])
    ++ [.log "Removing history commits.",
        .gitRaw ["update-ref", "-d", "HEAD"]]
  match updateRefResult with
  | some err => (head ++ [.log (red err)], none)
  | none =>
      (head
        ++ [.log (green "[Success]" ++ " removed history commits."),
            .gitAdd "./*",
            .gitCommit "first commit",
            .log (green "[Success]" ++ " initialized FixIt project " ++ name ++ "."),
            .log "🎉 Congratulations! You have created a new FixIt project.\n",
            .log (blue ("cd " ++ name ++ " && hugo server -O")
                    ++ "\n\nGo! Enjoy it and Fix it! 🐛")],
       none)

/-- `createAction` of `src/lib/actions.ts` (the inquirer/chalk/ora
implementation).  Same collaborator-outcome inputs as the bin
implementation; it has no timer, no cancel handler, no explicit
`process.exit` anywhere, and no post-init server launch. -/
def libCreateAction (candidates : List String) (template : Template)
    (cloneResult removeRemoteResult updateRefResult : Option String) : RunResult :=
  match libPromptName candidates with
  | none => ([], none)
  | some name =>
      let pre : List Effect :=
        [.log ("Initializing FixIt project " ++ name ++ ", please wait a moment."),
         .log ("Downloading template from " ++ cyan (repositories template) ++ "."),
         .gitClean,
         .gitClone (repositories template) name (cloneOptions template)]
      match cloneResult with
      | some err => (pre ++ [.log (red err)], none)
      | none =>
          let rest := libDetachAndCommit name removeRemoteResult updateRefResult
          (pre
            ++ [.log (green "[Success]" ++ " downloaded template from "
                        ++ cyan (repositories template) ++ ".")]
            ++ rest.1,
           rest.2)

/-- `checkAction` of `src/lib/actions.ts`: same fetch, chalk-styled
rendering (whole changelog magenta, not per-line), and — unlike the bin
implementation — no `process.exit(1)` on failure: the catch handler only
prints and returns. -/
def libCheckAction (fetchResult : Except String ReleaseInfo) : RunResult :=
  let pre : List Effect :=
    [.log "Checking the latest version of FixIt theme.",
     .fetchRelease "hugo-fixit" "FixIt"]
  match fetchResult with
  | .ok info =>
      (pre
        ++ [.log (green "[Success]" ++ " the latest version of FixIt theme is "
                    ++ blue info.version ++ "."),
            .log ("Release Notes: " ++ cyan info.homeUrl ++ "\n\n"
                    ++ magenta info.changelog ++ "\n"),
            .log (green "Note:"
                    ++ "\nYou can use commands below to update FixIt theme to the latest version.\n"),
            .log ("Hugo module:\n  "
                    ++ blue (moduleCommand info.version ++ "\n  hugo mod tidy")),
            .log ("Git submodule:\n  " ++ blue submoduleCommand ++ "\n")],
       none)
  | .error err =>
      (pre
        ++ [.log (red "[Failed]" ++ " failed to check the latest version of FixIt theme."),
            .log (red err),
            .log ("\n" ++ green "Note:"
                    ++ "\nYou can set GITHUB_TOKEN env to avoid GitHub API rate limit.\nRun command "
                    ++ blue "fixit help check" ++ " for more details.\n")],
       none)

/-! ## Helper lemmas -/

theorem promptName_singleton (name : String) (h : name ≠ "") :
    promptName [name] = some name := by
  simp [promptName, List.find?, validate, h]

theorem promptName_all_empty (cs : List String) (h : ∀ s ∈ cs, s = "") :
    promptName cs = none := by
  induction cs with
  | nil => rfl
  | cons a l ih =>
      have ha : a = "" := h a (List.mem_cons_self a l)
      subst ha
      have hrest := ih (fun s hs => h s (List.mem_cons_of_mem _ hs))
      unfold promptName at hrest ⊢
      rw [List.find?_cons_of_neg _ (by simp [validate])]
      exact hrest

theorem promptName_eq_libPromptName (cs : List String) :
    promptName cs = libPromptName cs := by
  unfold promptName libPromptName
  congr 1
  funext s
  unfold validate libValidate
  split <;> rfl

/-! ## Claims -/

/-- C5: for every project name, the clone options built for the
Git-submodule template contain depth 1, branch "main", single-branch and
both submodule flags, and the clone options built for the Hugo-module
template contain depth 1, branch "main", single-branch and neither
submodule flag; the clone call of the create workflow uses exactly these
options, independent of the name. -/
theorem C5_clone_options (name : String) (t : Template)
    (cloneResult removeRemoteResult updateRefResult : Option String)
    (runServer : ConfirmAnswer) (hugoInstalled : Bool) (elapsedMs : Nat)
    (h : name ≠ "") :
    Effect.gitClone (repositories t) name (cloneOptions t)
        ∈ (binCreateAction [name] t cloneResult removeRemoteResult updateRefResult
            runServer hugoInstalled elapsedMs).1
      ∧ cloneOptions .git =
          { depth := 1, branch := "main", singleBranch := true,
            recurseSubmodules := true, shallowSubmodules := true }
      ∧ cloneOptions .go =
          { depth := 1, branch := "main", singleBranch := true,
            recurseSubmodules := false, shallowSubmodules := false } := by
  refine ⟨?_, rfl, rfl⟩
  have hp := promptName_singleton name h
  unfold binCreateAction
  rw [hp]
  cases cloneResult <;> simp

/-- Witness for C5 at a concrete input. -/
theorem C5_clone_options_witness :
    ("blog" : String) ≠ ""
      ∧ (Effect.gitClone (repositories .git) "blog" (cloneOptions .git)
            ∈ (binCreateAction ["blog"] .git none none none (.answer false) true 0).1
          ∧ cloneOptions .git =
              { depth := 1, branch := "main", singleBranch := true,
                recurseSubmodules := true, shallowSubmodules := true }
          ∧ cloneOptions .go =
              { depth := 1, branch := "main", singleBranch := true,
                recurseSubmodules := false, shallowSubmodules := false }) :=
  ⟨by decide, C5_clone_options "blog" .git none none none (.answer false) true 0 (by decide)⟩

/-- C4 counterexample: the whitespace-only name consisting of a single
space passes validation (the source only rejects the exactly-empty string)
and the create workflow does attempt the clone with it, refuting the claim
that every whitespace-only name is rejected before any external call. -/
theorem C4_whitespace_counterexample :
    (" ".data.all Char.isWhitespace)
      ∧ validate " " = none
      ∧ Effect.gitClone (repositories .go) " " (cloneOptions .go)
          ∈ (binCreateAction [" "] .go none none none (.answer false) true 0).1 := by
  decide

/-- C4 (amended): only the exactly-empty project name is rejected by the
create workflow's validation — while every supplied candidate answer is
empty, no git operation (in particular no clone) is performed; every
non-empty name, including whitespace-only ones, passes validation. -/
theorem C4_empty_name_no_clone :
    (∀ cs : List String, (∀ s ∈ cs, s = "") →
      ∀ (t : Template) (cloneResult removeRemoteResult updateRefResult : Option String)
        (runServer : ConfirmAnswer) (hugoInstalled : Bool) (elapsedMs : Nat),
        (binCreateAction cs t cloneResult removeRemoteResult updateRefResult
            runServer hugoInstalled elapsedMs).1.filter Effect.isGitOp = [])
      ∧ validate "" = some "project name is required!"
      ∧ (∀ s : String, s ≠ "" → validate s = none) := by
  refine ⟨?_, rfl, ?_⟩
  · intro cs hcs t cloneResult removeRemoteResult updateRefResult runServer hugoInstalled elapsedMs
    unfold binCreateAction
    rw [promptName_all_empty cs hcs]
    rfl
  · intro s hs
    simp [validate, hs]

/-- Witness for C4 (amended) at concrete inputs. -/
theorem C4_empty_name_no_clone_witness :
    (binCreateAction [""] .go none none none (.answer false) true 0).1.filter
        Effect.isGitOp = []
      ∧ validate " " = none :=
  ⟨C4_empty_name_no_clone.1 [""] (by decide) .go none none none (.answer false) true 0,
   C4_empty_name_no_clone.2.2 " " (by decide)⟩

/-- C1 counterexample: a concrete run whose clone fails with message
"network error" surfaces the message and performs none of the later steps,
but makes no explicit process-exit call — the process terminates with the
default status 0, not with exit status 1 as the claim states. -/
theorem C1_clone_failure_counterexample :
    (binCreateAction ["blog"] .go (some "network error") none none
        (.answer false) true 1234).1 =
      [.timerStart,
       .log "Initializing FixIt project blog, please wait a moment...",
       .log ("Template downloading from " ++ cyan (repositories .go) ++ "."),
       .gitClean,
       .gitClone (repositories .go) "blog" (cloneOptions .go),
       .log "network error"]
      ∧ (binCreateAction ["blog"] .go (some "network error") none none
          (.answer false) true 1234).2 = none
      ∧ processStatus (binCreateAction ["blog"] .go (some "network error") none none
          (.answer false) true 1234) = 0 := by
  refine ⟨rfl, rfl, rfl⟩

/-- C1 (amended): for every run whose clone fails, the workflow surfaces
the underlying error message, performs none of the later steps (no remote
removal, history deletion, baseline commit, subprocess or post-init
output), and terminates without an explicit exit call, so the process ends
with the default status 0 rather than exit status 1. -/
theorem C1_clone_failure_aborts (name err : String) (t : Template)
    (removeRemoteResult updateRefResult : Option String)
    (runServer : ConfirmAnswer) (hugoInstalled : Bool) (elapsedMs : Nat)
    (h : name ≠ "") :
    binCreateAction [name] t (some err) removeRemoteResult updateRefResult
        runServer hugoInstalled elapsedMs =
      ([.timerStart,
        .log ("Initializing FixIt project " ++ name ++ ", please wait a moment..."),
        .log ("Template downloading from " ++ cyan (repositories t) ++ "."),
        .gitClean,
        .gitClone (repositories t) name (cloneOptions t),
        .log err],
       none) := by
  have hp := promptName_singleton name h
  unfold binCreateAction
  rw [hp]
  rfl

/-- Witness for C1 (amended) at a concrete input. -/
theorem C1_clone_failure_aborts_witness :
    binCreateAction ["site"] .git (some "fatal: repository not found") none none
        (.answer true) false 42 =
      ([.timerStart,
        .log ("Initializing FixIt project " ++ "site" ++ ", please wait a moment..."),
        .log ("Template downloading from " ++ cyan (repositories .git) ++ "."),
        .gitClean,
        .gitClone (repositories .git) "site" (cloneOptions .git),
        .log "fatal: repository not found"],
       none) :=
  C1_clone_failure_aborts "site" "fatal: repository not found" .git none none
    (.answer true) false 42 (by decide)

/-- C2: in the detach-history step, the history-deletion call
(update-ref -d HEAD) is issued on every run that reaches the step,
regardless of whether the remote-removal call succeeded or failed, and a
remote-removal failure is reported (its error message is printed). -/
theorem C2_history_deletion_regardless (name : String) (t : Template)
    (removeRemoteResult updateRefResult : Option String)
    (runServer : ConfirmAnswer) (hugoInstalled : Bool) (elapsedMs : Nat)
    (h : name ≠ "") :
    Effect.gitRaw ["update-ref", "-d", "HEAD"]
        ∈ (binCreateAction [name] t none removeRemoteResult updateRefResult
            runServer hugoInstalled elapsedMs).1
      ∧ (∀ e, removeRemoteResult = some e →
          Effect.log e
            ∈ (binCreateAction [name] t none removeRemoteResult updateRefResult
                runServer hugoInstalled elapsedMs).1) := by
  have hp := promptName_singleton name h
  constructor
  · unfold binCreateAction detachAndCommit
    rw [hp]
    cases removeRemoteResult <;> cases updateRefResult <;> simp
  · rintro e rfl
    unfold binCreateAction detachAndCommit
    rw [hp]
    cases updateRefResult <;> simp

/-- Witness for C2 at a concrete input with a failing remote removal. -/
theorem C2_history_deletion_regardless_witness :
    Effect.gitRaw ["update-ref", "-d", "HEAD"]
        ∈ (binCreateAction ["blog"] .go none (some "error: No such remote") none
            (.answer false) true 9).1
      ∧ Effect.log "error: No such remote"
          ∈ (binCreateAction ["blog"] .go none (some "error: No such remote") none
              (.answer false) true 9).1 :=
  ⟨(C2_history_deletion_regardless "blog" .go (some "error: No such remote") none
      (.answer false) true 9 (by decide)).1,
   (C2_history_deletion_regardless "blog" .go (some "error: No such remote") none
      (.answer false) true 9 (by decide)).2 "error: No such remote" rfl⟩

/-- C3: at the post-init choice, declining prints the manual command and
exits 0 with no subprocess; accepting with hugo absent prints the error and
the manual instructions and exits 1 with no subprocess; accepting with hugo
present makes no explicit exit and hands off by changing directory into the
project and then running the server. -/
theorem C3_post_init_choice (name : String) (t : Template)
    (removeRemoteResult : Option String) (hugoInstalled : Bool) (elapsedMs : Nat)
    (h : name ≠ "") :
    ((binCreateAction [name] t none removeRemoteResult none (.answer false)
        hugoInstalled elapsedMs).2 = some 0
      ∧ (binCreateAction [name] t none removeRemoteResult none (.answer false)
          hugoInstalled elapsedMs).1.filter Effect.isSubprocess = []
      ∧ Effect.log ("Run " ++ blue (serverCmd name) ++ " to start the development server.")
          ∈ (binCreateAction [name] t none removeRemoteResult none (.answer false)
              hugoInstalled elapsedMs).1)
    ∧ ((binCreateAction [name] t none removeRemoteResult none (.answer true)
          false elapsedMs).2 = some 1
      ∧ (binCreateAction [name] t none removeRemoteResult none (.answer true)
          false elapsedMs).1.filter Effect.isSubprocess = []
      ∧ Effect.log (red "Hugo is not installed. You need to install Hugo to start this project!")
          ∈ (binCreateAction [name] t none removeRemoteResult none (.answer true)
              false elapsedMs).1
      ∧ Effect.log ("After installing Hugo, run " ++ blue (serverCmd name)
            ++ " to start the development server.")
          ∈ (binCreateAction [name] t none removeRemoteResult none (.answer true)
              false elapsedMs).1)
    ∧ ((binCreateAction [name] t none removeRemoteResult none (.answer true)
          true elapsedMs).2 = none
      ∧ (binCreateAction [name] t none removeRemoteResult none (.answer true)
          true elapsedMs).1.filter Effect.isSubprocess =
            [.shellCd name, .shellExec "hugo server -O"]) := by
  have hp := promptName_singleton name h
  unfold binCreateAction detachAndCommit postInit
  rw [hp]
  cases removeRemoteResult <;> simp [Effect.isSubprocess]

/-- Witness for C3 at a concrete input. -/
theorem C3_post_init_choice_witness :
    ((binCreateAction ["blog"] .go none none none (.answer false) true 2500).2 = some 0
      ∧ (binCreateAction ["blog"] .go none none none (.answer false)
          true 2500).1.filter Effect.isSubprocess = []
      ∧ Effect.log ("Run " ++ blue (serverCmd "blog") ++ " to start the development server.")
          ∈ (binCreateAction ["blog"] .go none none none (.answer false) true 2500).1)
    ∧ ((binCreateAction ["blog"] .go none none none (.answer true) false 2500).2 = some 1
      ∧ (binCreateAction ["blog"] .go none none none (.answer true)
          false 2500).1.filter Effect.isSubprocess = []
      ∧ Effect.log (red "Hugo is not installed. You need to install Hugo to start this project!")
          ∈ (binCreateAction ["blog"] .go none none none (.answer true) false 2500).1
      ∧ Effect.log ("After installing Hugo, run " ++ blue (serverCmd "blog")
            ++ " to start the development server.")
          ∈ (binCreateAction ["blog"] .go none none none (.answer true) false 2500).1)
    ∧ ((binCreateAction ["blog"] .go none none none (.answer true) true 2500).2 = none
      ∧ (binCreateAction ["blog"] .go none none none (.answer true)
          true 2500).1.filter Effect.isSubprocess =
            [.shellCd "blog", .shellExec "hugo server -O"]) :=
  C3_post_init_choice "blog" .go none true 2500 (by decide)

/-- C10: cancelling the post-init confirm prompt (the prompt library's
cancel symbol instead of a boolean) is treated as acceptance: the run is
identical to one answering true — only a strictly falsy answer selects the
decline path — so a cancelled run does not exit 0 but proceeds to the
server-launch branch (running the server when hugo is present, exiting 1
when it is absent). -/
theorem C10_cancel_symbol_accepts :
    (∀ (cs : List String) (t : Template)
        (cloneResult removeRemoteResult updateRefResult : Option String)
        (hugoInstalled : Bool) (elapsedMs : Nat),
        binCreateAction cs t cloneResult removeRemoteResult updateRefResult
            .cancelSymbol hugoInstalled elapsedMs
          = binCreateAction cs t cloneResult removeRemoteResult updateRefResult
              (.answer true) hugoInstalled elapsedMs)
    ∧ (∀ (name : String) (t : Template) (removeRemoteResult : Option String)
        (elapsedMs : Nat), name ≠ "" →
        (binCreateAction [name] t none removeRemoteResult none .cancelSymbol
            true elapsedMs).2 = none
        ∧ (binCreateAction [name] t none removeRemoteResult none .cancelSymbol
            true elapsedMs).2 ≠ some 0
        ∧ Effect.shellExec "hugo server -O"
            ∈ (binCreateAction [name] t none removeRemoteResult none .cancelSymbol
                true elapsedMs).1
        ∧ (binCreateAction [name] t none removeRemoteResult none .cancelSymbol
            false elapsedMs).2 = some 1) := by
  constructor
  · intro cs t cloneResult removeRemoteResult updateRefResult hugoInstalled elapsedMs
    unfold binCreateAction detachAndCommit postInit
    cases hpn : promptName cs <;>
      cases cloneResult <;>
      cases removeRemoteResult <;>
      cases updateRefResult <;>
      rfl
  · intro name t removeRemoteResult elapsedMs h
    have hp := promptName_singleton name h
    unfold binCreateAction detachAndCommit postInit
    rw [hp]
    cases removeRemoteResult <;> simp

/-- Witness for C10 at a concrete input. -/
theorem C10_cancel_symbol_accepts_witness :
    (binCreateAction ["a"] .go none none none .cancelSymbol true 0
        = binCreateAction ["a"] .go none none none (.answer true) true 0)
    ∧ (binCreateAction ["a"] .go none none none .cancelSymbol true 0).2 = none :=
  ⟨C10_cancel_symbol_accepts.1 ["a"] .go none none none true 0,
   (C10_cancel_symbol_accepts.2 "a" .go none 0 (by decide)).1⟩

theorem red_data_head (s : String) : (red s).data.head? = some '\x1b' := by
  show (("\x1b[31m" ++ s) ++ "\x1b[39m").data.head? = some '\x1b'
  rw [String.data_append, String.data_append]
  rfl

theorem red_ne_tokenHintStep (s : String) : red s ≠ tokenHintStep := by
  intro h
  have h1 : (red s).data.head? = tokenHintStep.data.head? := by rw [h]
  rw [red_data_head] at h1
  simp only [tokenHintStep] at h1
  have h2 : (("You can set GITHUB_TOKEN env to avoid GitHub API rate limit.\nRun command "
      ++ blue "fixit help check" ++ " for more details.\n") : String).data.head? = some 'Y' := by
    rw [String.data_append, String.data_append]
    rfl
  rw [h2] at h1
  exact absurd (Option.some.inj h1) (by decide)

/-- C6: on every successful release fetch, the check workflow renders the
version line, the homepage URL, the changelog with each line individually
gray-styled in the original order, and the two upgrade command blocks; the
module-based command interpolates the fetched version (everything in the
upgrade text outside the interpolation point is version-independent) while
the submodule-based command is a fixed string with no substitution. -/
theorem C6_check_success_rendering (version changelog homeUrl : String) (elapsedMs : Nat) :
    (binCheckAction (.ok ⟨version, changelog, homeUrl⟩) elapsedMs).1 =
      [.timerStart,
       .log "Checking the latest version of FixIt theme.",
       .fetchRelease "hugo-fixit" "FixIt",
       .log (releaseNotesMsg homeUrl changelog),
       .log (green "✔" ++ " The latest version of FixIt theme is " ++ blue version ++ "."),
       .log (upgradeStep version),
       .outro (doneMsg elapsedMs)]
    ∧ (binCheckAction (.ok ⟨version, changelog, homeUrl⟩) elapsedMs).2 = none
    ∧ releaseNotesMsg homeUrl changelog =
        "Release Notes: " ++ cyan homeUrl ++ "\n\n"
          ++ String.intercalate "\n" ((changelog.splitOn "\n").map gray)
    ∧ ((changelog.splitOn "\n").map gray).length = (changelog.splitOn "\n").length
    ∧ (∀ i : Nat,
        ((changelog.splitOn "\n").map gray)[i]? = ((changelog.splitOn "\n")[i]?).map gray)
    ∧ (∃ pre post : String, ∀ v : String, upgradeStep v = pre ++ v ++ post)
    ∧ submoduleCommand = "git submodule update --remote --merge themes/FixIt" := by
  refine ⟨rfl, rfl, rfl, List.length_map _ _, fun i => by simp, ?_, rfl⟩
  refine ⟨"You can use commands below to update FixIt theme to the latest version.\n"
      ++ gray "Hugo module:" ++ "\n" ++ "  " ++ "\x1b[34m"
      ++ "hugo mod get -u github.com/hugo-fixit/FixIt@",
    "\x1b[39m" ++ "\n" ++ "  " ++ blue "hugo mod tidy" ++ "\n"
      ++ gray "Git submodule:" ++ "\n" ++ "  " ++ blue submoduleCommand, fun v => ?_⟩
  simp only [upgradeStep, moduleCommand, blue, String.append_assoc]

/-- C7: on every failed release fetch, the check workflow displays the
error message, displays the access-token guidance exactly once, issues the
fetch exactly once (no retry), and exits with the non-zero status 1. -/
theorem C7_check_failure (e : String) (elapsedMs : Nat) :
    binCheckAction (.error e) elapsedMs =
      ([.timerStart,
        .log "Checking the latest version of FixIt theme.",
        .fetchRelease "hugo-fixit" "FixIt",
        .log (red e),
        .log (red "✘" ++ " failed to check the latest version of FixIt theme."),
        .log tokenHintStep],
       some 1)
    ∧ processStatus (binCheckAction (.error e) elapsedMs) = 1
    ∧ ((binCheckAction (.error e) elapsedMs).1.filter Effect.isFetch).length = 1
    ∧ (binCheckAction (.error e) elapsedMs).1.count (Effect.log tokenHintStep) = 1 := by
  refine ⟨rfl, rfl, rfl, ?_⟩
  have hne : red e ≠ tokenHintStep := red_ne_tokenHintStep e
  show List.count (Effect.log tokenHintStep)
    [.timerStart,
     .log "Checking the latest version of FixIt theme.",
     .fetchRelease "hugo-fixit" "FixIt",
     .log (red e),
     .log (red "✘" ++ " failed to check the latest version of FixIt theme."),
     .log tokenHintStep] = 1
  simp [List.count_cons, hne,
    show ¬(red "✘" ++ " failed to check the latest version of FixIt theme."
        = tokenHintStep) from by decide,
    show ¬("Checking the latest version of FixIt theme." = tokenHintStep) from by decide]

/-- C8 counterexample: on the check workflow's fetch-failure path (and on
the create workflow's clone-failure path) the elapsed-time reporter is
never stopped — zero outro lines invoke it, not exactly one as the claim
states for every terminating run. -/
theorem C8_timer_not_stopped_counterexample :
    ((binCheckAction (.error "HTTP 403") 0).1.filter Effect.isOutro).length = 0
      ∧ processStatus (binCheckAction (.error "HTTP 403") 0) = 1
      ∧ ((binCreateAction ["blog"] .go (some "network error") none none
          (.answer true) true 7).1.filter Effect.isOutro).length = 0 :=
  ⟨rfl, rfl, rfl⟩

/-- C8 (amended): the elapsed-time reporter's stop is invoked exactly once,
and the duration it returns is reported in the final output line, on every
help run, on every successful check run, and on every create run that
reaches the post-init choice; it is invoked zero times on the check
fetch-failure path, the create clone-failure path and the create
history-deletion-failure path. -/
theorem C8_timer_stop_per_path :
    (∀ (command : String) (elapsedMs : Nat),
        (helpAction command elapsedMs).1.filter Effect.isOutro
            = [.outro (doneMsg elapsedMs)]
          ∧ (outputLines (helpAction command elapsedMs).1).getLast?
              = some (doneMsg elapsedMs))
    ∧ (∀ (version changelog homeUrl : String) (elapsedMs : Nat),
        (binCheckAction (.ok ⟨version, changelog, homeUrl⟩) elapsedMs).1.filter
            Effect.isOutro = [.outro (doneMsg elapsedMs)]
          ∧ (outputLines (binCheckAction (.ok ⟨version, changelog, homeUrl⟩)
              elapsedMs).1).getLast? = some (doneMsg elapsedMs))
    ∧ (∀ (e : String) (elapsedMs : Nat),
        (binCheckAction (.error e) elapsedMs).1.filter Effect.isOutro = [])
    ∧ (∀ (name : String) (t : Template) (removeRemoteResult : Option String)
        (runServer : ConfirmAnswer) (hugoInstalled : Bool) (elapsedMs : Nat),
        name ≠ "" →
        (binCreateAction [name] t none removeRemoteResult none runServer
            hugoInstalled elapsedMs).1.filter Effect.isOutro
              = [.outro (doneMsg elapsedMs)]
          ∧ (outputLines (binCreateAction [name] t none removeRemoteResult none
              runServer hugoInstalled elapsedMs).1).getLast? = some (doneMsg elapsedMs))
    ∧ (∀ (name err : String) (t : Template) (rr ur : Option String)
        (runServer : ConfirmAnswer) (hugoInstalled : Bool) (elapsedMs : Nat),
        name ≠ "" →
        (binCreateAction [name] t (some err) rr ur runServer hugoInstalled
            elapsedMs).1.filter Effect.isOutro = [])
    ∧ (∀ (name uerr : String) (t : Template) (rr : Option String)
        (runServer : ConfirmAnswer) (hugoInstalled : Bool) (elapsedMs : Nat),
        name ≠ "" →
        (binCreateAction [name] t none rr (some uerr) runServer hugoInstalled
            elapsedMs).1.filter Effect.isOutro = []) := by
  refine ⟨?_, fun v cl h d => ⟨rfl, rfl⟩, fun e d => rfl, ?_, ?_, ?_⟩
  · intro command elapsedMs
    unfold helpAction
    split_ifs <;> exact ⟨rfl, rfl⟩
  · intro name t removeRemoteResult runServer hugoInstalled elapsedMs h
    have hp := promptName_singleton name h
    unfold binCreateAction detachAndCommit postInit
    rw [hp]
    rcases runServer with (_ | _) | _ <;>
      cases removeRemoteResult <;> cases hugoInstalled <;> exact ⟨rfl, rfl⟩
  · intro name err t rr ur runServer hugoInstalled elapsedMs h
    have hp := promptName_singleton name h
    unfold binCreateAction
    rw [hp]
    rfl
  · intro name uerr t rr runServer hugoInstalled elapsedMs h
    have hp := promptName_singleton name h
    unfold binCreateAction detachAndCommit
    rw [hp]
    cases rr <;> rfl

/-- Witness for C8 (amended) at concrete inputs. -/
theorem C8_timer_stop_per_path_witness :
    ((binCreateAction ["blog"] .go none none none (.answer false) true 3000).1.filter
        Effect.isOutro = [.outro (doneMsg 3000)]
      ∧ (outputLines (binCreateAction ["blog"] .go none none none (.answer false)
          true 3000).1).getLast? = some (doneMsg 3000)) :=
  C8_timer_stop_per_path.2.2.2.1 "blog" .go none (.answer false) true 3000 (by decide)

/-- C9 counterexample: on the same fetch-failure input the bin
implementation exits with status 1 while the lib implementation makes no
exit call and the process ends with status 0; and on the same create inputs
the bin implementation launches the dev-server subprocess while the lib one
launches none — the two implementations are not behaviorally equivalent. -/
theorem C9_not_equivalent_counterexample :
    processStatus (binCheckAction (.error "HTTP 403") 0) = 1
      ∧ processStatus (libCheckAction (.error "HTTP 403")) = 0
      ∧ processStatus (binCheckAction (.error "HTTP 403") 0)
          ≠ processStatus (libCheckAction (.error "HTTP 403"))
      ∧ (binCreateAction ["blog"] .go none none none (.answer true) true 0).1.filter
          Effect.isSubprocess = [.shellCd "blog", .shellExec "hugo server -O"]
      ∧ (libCreateAction ["blog"] .go none none none).1.filter Effect.isSubprocess
          = [] :=
  ⟨rfl, rfl, by decide, rfl, rfl⟩

/-- C9 (amended): the two implementations agree on the git-operation
sequences of the create workflow (same clone options, same sub-operations,
on every input), and on issuing the release fetch exactly alike; but they
are not equivalent: the lib implementation never launches a subprocess
(it has no post-init server step) and makes no exit call on check failure
(terminating 0) where the bin implementation exits 1. -/
theorem C9_one_git_contract_two_behaviors :
    (∀ (cs : List String) (t : Template)
        (cloneResult removeRemoteResult updateRefResult : Option String)
        (runServer : ConfirmAnswer) (hugoInstalled : Bool) (elapsedMs : Nat),
        (binCreateAction cs t cloneResult removeRemoteResult updateRefResult
            runServer hugoInstalled elapsedMs).1.filter Effect.isGitOp
          = (libCreateAction cs t cloneResult removeRemoteResult
              updateRefResult).1.filter Effect.isGitOp)
    ∧ (∀ (cs : List String) (t : Template)
        (cloneResult removeRemoteResult updateRefResult : Option String),
        (libCreateAction cs t cloneResult removeRemoteResult updateRefResult).1.filter
            Effect.isSubprocess = [])
    ∧ (∀ e : String, (libCheckAction (.error e)).2 = none)
    ∧ (∀ (e : String) (elapsedMs : Nat), (binCheckAction (.error e) elapsedMs).2 = some 1)
    ∧ (∀ (r : Except String ReleaseInfo) (elapsedMs : Nat),
        (binCheckAction r elapsedMs).1.filter Effect.isFetch
          = (libCheckAction r).1.filter Effect.isFetch) := by
  refine ⟨?_, ?_, fun e => rfl, fun e d => rfl, fun r d => ?_⟩
  · intro cs t cloneResult removeRemoteResult updateRefResult runServer hugoInstalled elapsedMs
    have hq := promptName_eq_libPromptName cs
    unfold binCreateAction libCreateAction detachAndCommit libDetachAndCommit postInit
    rw [← hq]
    cases hp : promptName cs <;>
      cases cloneResult <;>
      cases updateRefResult <;>
      cases removeRemoteResult <;>
      rcases runServer with (_ | _) | _ <;>
      cases hugoInstalled <;>
      rfl
  · intro cs t cloneResult removeRemoteResult updateRefResult
    unfold libCreateAction libDetachAndCommit
    cases hp : libPromptName cs <;>
      cases cloneResult <;>
      cases updateRefResult <;>
      cases removeRemoteResult <;>
      rfl
  · cases r <;> rfl
